import Mathlib

/-!
Shallow embedding of the upload handler of the Image Optimizer
application (`app/routes.py`).

Pure helpers (extension check, filename derivation, quality parsing,
size arithmetic) are translated directly from the Python source.  The
external effects (the request object, the filesystem, Pillow's `verify`,
OpenCV's `imread`/`resize`/`imwrite`) are modelled by an environment
record whose fields record the outcome of each library call, and by an
explicit store mapping path strings to file contents.  Float arithmetic
on sizes is idealized over `ℚ`.
-/

/-- Characters stripped by Python `int(str)` around the literal (ASCII
whitespace fragment). -/
def isPySpace (c : Char) : Bool :=
  c == ' ' || c == '\t' || c == '\n' || c == '\r' || c == '\x0b' || c == '\x0c'

/-- Strip leading and trailing whitespace. -/
def stripPyWs (cs : List Char) : List Char :=
  ((cs.dropWhile isPySpace).reverse.dropWhile isPySpace).reverse

/-- Digits of a decimal integer literal after the first one: each further
digit may be preceded by a single underscore separator.  Accumulates the
value. -/
def digitsCore (acc : Nat) : List Char → Option Nat
  | [] => some acc
  | '_' :: c :: rest =>
      if c.isDigit then digitsCore (acc * 10 + (c.toNat - 48)) rest else none
  | c :: rest =>
      if c.isDigit then digitsCore (acc * 10 + (c.toNat - 48)) rest else none

/-- Value of a nonempty run of decimal digits with optional single
underscore separators, as accepted by Python `int`. -/
def parseUDigits : List Char → Option Nat
  | [] => none
  | c :: rest => if c.isDigit then digitsCore (c.toNat - 48) rest else none

/-- Model of Python `int(s)` on a string: optional surrounding whitespace,
optional sign, decimal digits; a parse failure (Python `ValueError`)
becomes `none`. -/
def pyInt (s : String) : Option Int :=
  match stripPyWs s.data with
  | '+' :: rest => (parseUDigits rest).map (fun n => (n : Int))
  | '-' :: rest => (parseUDigits rest).map (fun n => -(n : Int))
  | cs => (parseUDigits cs).map (fun n => (n : Int))

/-- Source `routes.py` lines 110–116: resolve the `quality` form parameter.
`request.form.get('quality', 50)` yields the integer default `50` when
the field is absent; otherwise the string is parsed with `int`, a
`ValueError` falls back to 50, and an out-of-range value falls back
to 50. -/
def resolveQuality (q : Option String) : Int :=
  match q with
  | none => 50
  | some s =>
    match pyInt s with
    | none => 50
    | some n => if n < 0 ∨ 100 < n then 50 else n

/-- Python `int` applied to a numeric value: truncation toward zero. -/
def pyTrunc (x : ℚ) : ℤ := if 0 ≤ x then ⌊x⌋ else ⌈x⌉

/-- Source `routes.py` lines 126–127: `int(dim * 0.5)` for a dimension read from
`image.shape`. -/
def newDim (d : Nat) : ℤ := pyTrunc ((d : ℚ) * 0.5)

/-- Round half to even (Python `round`) to an integer. -/
def roundHalfEven (x : ℚ) : ℤ :=
  if Int.fract x < 1/2 then ⌊x⌋
  else if 1/2 < Int.fract x then ⌊x⌋ + 1
  else if ⌊x⌋ % 2 = 0 then ⌊x⌋ else ⌊x⌋ + 1

/-- Python `round(x, 2)`. -/
def pyRound2 (x : ℚ) : ℚ := (roundHalfEven (x * 100) : ℚ) / 100

/-- First character is the path separator (`b.startswith('/')`). -/
def startsWithSlash (s : String) : Bool := s.data.head? == some '/'

/-- Last character is the path separator (`path.endswith('/')`). -/
def endsWithSlash (s : String) : Bool := s.data.getLast? == some '/'

/-- Model of `os.path.join` on POSIX paths, two arguments (`posixpath.join`). -/
def posixJoin (a b : String) : String :=
  if startsWithSlash b then b
  else if a == "" || endsWithSlash a then a ++ b
  else a ++ "/" ++ b

/-- Index of the last occurrence of `c` in the list, if any. -/
def lastIdxOf (c : Char) : List Char → Option Nat
  | [] => none
  | a :: rest =>
    match lastIdxOf c rest with
    | some i => some (i + 1)
    | none => if a = c then some 0 else none

/-- Root part of `os.path.splitext` (`posixpath.splitext`): everything up
to the last dot, provided that dot lies after the last separator and the
basename has a non-dot character before it (leading dots of a basename
never start an extension). -/
def splitextRoot (p : String) : String :=
  let cs := p.data
  match lastIdxOf '.' cs with
  | none => p
  | some dotIdx =>
    let start : Nat :=
      match lastIdxOf '/' cs with
      | none => 0
      | some sepIdx => sepIdx + 1
    if start ≤ dotIdx then
      if ((cs.drop start).take (dotIdx - start)).any (fun ch => ch != '.') then
        String.mk (cs.take dotIdx)
      else p
    else p

/-- Source `routes.py` line 76. -/
def allowed_extensions : List String := ["png", "jpg", "jpeg", "gif"]

/-- Source `routes.py` line 77: defined in `upload`, but never consulted by any
later statement of the handler. -/
def allowed_mime_types : List String := ["image/png", "image/jpeg", "image/gif"]

/-- Substring after the last dot (`filename.rsplit('.', 1)[1]`), for a
filename that contains a dot. -/
def extAfterLastDot (fn : String) : String :=
  match lastIdxOf '.' fn.data with
  | some i => String.mk (fn.data.drop (i + 1))
  | none => ""

/-- ASCII lowercasing of one character (`str.lower`, ASCII fragment). -/
def charLower (c : Char) : Char :=
  if 'A' ≤ c ∧ c ≤ 'Z' then Char.ofNat (c.toNat + 32) else c

/-- ASCII lowercasing of a string (`str.lower`, ASCII fragment). -/
def strLower (s : String) : String := ⟨s.data.map charLower⟩

/-- Source `routes.py` lines 78–79: `'.' in filename and
filename.rsplit('.', 1)[1].lower() in allowed_extensions`. -/
def allowed_file (fn : String) : Bool :=
  fn.data.contains '.' && allowed_extensions.contains (strLower (extAfterLastDot fn))

/-- Source `routes.py` line 85: `os.path.join(upload_folder, 'temp_' + filename)`. -/
def tempPath (folder fn : String) : String := posixJoin folder ("temp_" ++ fn)

/-- Source `routes.py` lines 136–140: `processed_{basename}.{output_ext}` with
`output_ext = 'jpg'` and `basename = os.path.splitext(filename)[0]`. -/
def processedFilename (fn : String) : String :=
  "processed_" ++ splitextRoot fn ++ "." ++ "jpg"

/-- Source `routes.py` line 141. -/
def processedPath (folder fn : String) : String :=
  posixJoin folder (processedFilename fn)

/-- One step of lexical path normalization over a reversed stack of
components. -/
def normStep (stack : List String) (c : String) : List String :=
  if c = "" ∨ c = "." then stack
  else if c = ".." then
    match stack with
    | [] => [".."]
    | top :: rest => if top = ".." then c :: top :: rest else rest
  else c :: stack

/-- Lexical normalization of a relative path split at `/`. -/
def normComps (cs : List String) : List String := (cs.foldl normStep []).reverse

/-- Split a character list at every `/`. -/
def splitSlashAux : List Char → List (List Char)
  | [] => [[]]
  | c :: rest =>
    let r := splitSlashAux rest
    if c = '/' then [] :: r
    else
      match r with
      | [] => [[c]]
      | g :: gs => (c :: g) :: gs

/-- Split a path string at every `/` into its components. -/
def splitSlash (s : String) : List String :=
  (splitSlashAux s.data).map (fun l => ⟨l⟩)

/-- Whether `path` stays inside directory `dir`, comparing lexically
normalized component lists. -/
def insideDir (dir path : String) : Bool :=
  List.isPrefixOf (normComps (splitSlash dir)) (normComps (splitSlash path))

/-- Content of a file in the storage directory, as far as the handler
observes it: either raw uploaded bytes or a JPEG written by
`cv2.imwrite` with the given quality and dimensions. -/
inductive FsFile
  | raw (content : Nat)
  | jpeg (quality : Int) (width height : ℤ)
deriving DecidableEq

/-- The shared storage, as a map from path string to file content. -/
def FS : Type := String → Option FsFile

/-- Writing a file replaces whatever was stored at that path. -/
def setFile (fs : FS) (p : String) (v : FsFile) : FS :=
  fun q => if q = p then some v else fs q

/-- Removing a file. -/
def delFile (fs : FS) (p : String) : FS :=
  fun q => if q = p then none else fs q

/-- Model of `try: os.remove(path) except OSError: pass` — a removal attempt whose
failure leaves the store unchanged. -/
def tryRemove (fs : FS) (p : String) (ok : Bool) : FS :=
  if ok then delFile fs p else fs

/-- The uploaded file as the request layer hands it over: declared
filename, declared MIME type, and abstracted byte content. -/
structure FileUpload where
  filename : String
  mimetype : String
  content : Nat
deriving DecidableEq

/-- Dimensions of the bitmap decoded by `cv2.imread`
(`height, width = image.shape[:2]`). -/
structure Dims where
  width : Nat
  height : Nat
deriving DecidableEq

/-- Outcome of `PIL Image.open(temp_path)` + `verify()` on the temp file:
success, an `UnidentifiedImageError`/`OSError`, or any other exception. -/
inductive VerifyOutcome
  | ok
  | invalid
  | err
deriving DecidableEq

/-- Oracle for the outcomes of the external calls performed by one
invocation of the `upload` handler. -/
structure Env where
  imageFile : Option FileUpload
  uploadFolder : String
  mkdirOk : Bool
  saveOk : Bool
  verify : VerifyOutcome
  qualityParam : Option String
  imread : Option Dims
  removeOk : Bool
  imwriteOk : Bool
  tempSize : Nat
  processedSize : Nat
deriving DecidableEq

/-- JSON response of the handler together with its HTTP status. -/
inductive Response
  | success (message processedImage : String)
      (originalSize processedSize : Nat) (sizeReductionPercent : ℚ)
  | failure (error : String) (status : Nat)
deriving DecidableEq

/-- Pipeline stages of the handler, in source order. -/
inductive Step
  | presence | mkdir | extCheck | saveTemp | verify | qualityRes
  | decode | resize | encodeWrite | stats | cleanup
deriving DecidableEq

/-- Result of one run: the response returned, the final store, the path
handed to `image_file.save` (when that call is reached), and the stages
executed, in order. -/
structure Run where
  response : Response
  fs : FS
  tempTarget : Option String
  steps : List Step

/-- Source `routes.py` lines 61–169: the `upload` handler.

`cv2.resize` raises when a target dimension is zero, which the `except`
at line 129 turns into the processing error; the `os.remove` calls at
lines 122, 131 and 146 are not wrapped in a handler of their own, so
their failure propagates to the outer `except` at line 167 and produces
the generic 500 response, while the removals at lines 98, 105 and 156
swallow `OSError`. -/
def upload (env : Env) (fs0 : FS) : Run :=
  match env.imageFile with
  | none => ⟨.failure "No image uploaded!" 400, fs0, none, [.presence]⟩
  | some f =>
    if env.mkdirOk then
      if allowed_file f.filename then
        let tp := tempPath env.uploadFolder f.filename
        if env.saveOk then
          let fs1 := setFile fs0 tp (.raw f.content)
          match env.verify with
          | .invalid =>
            ⟨.failure "Uploaded file is not a valid image!" 400,
              tryRemove fs1 tp env.removeOk, some tp,
              [.presence, .mkdir, .extCheck, .saveTemp, .verify]⟩
          | .err =>
            ⟨.failure "Server error: Unable to verify file type." 500,
              tryRemove fs1 tp env.removeOk, some tp,
              [.presence, .mkdir, .extCheck, .saveTemp, .verify]⟩
          | .ok =>
            let quality := resolveQuality env.qualityParam
            match env.imread with
            | none =>
              if env.removeOk then
                ⟨.failure "Invalid image file!" 400, delFile fs1 tp, some tp,
                  [.presence, .mkdir, .extCheck, .saveTemp, .verify, .qualityRes,
                    .decode]⟩
              else
                ⟨.failure "An unexpected error occurred. Please try again." 500,
                  fs1, some tp,
                  [.presence, .mkdir, .extCheck, .saveTemp, .verify, .qualityRes,
                    .decode]⟩
            | some dims =>
              let nw := newDim dims.width
              let nh := newDim dims.height
              if nw = 0 ∨ nh = 0 then
                if env.removeOk then
                  ⟨.failure "Server error: Unable to process image." 500,
                    delFile fs1 tp, some tp,
                    [.presence, .mkdir, .extCheck, .saveTemp, .verify, .qualityRes,
                      .decode, .resize]⟩
                else
                  ⟨.failure "An unexpected error occurred. Please try again." 500,
                    fs1, some tp,
                    [.presence, .mkdir, .extCheck, .saveTemp, .verify, .qualityRes,
                      .decode, .resize]⟩
              else
                let pp := processedPath env.uploadFolder f.filename
                if env.imwriteOk then
                  let fs2 := setFile fs1 pp (.jpeg quality nw nh)
                  let originalSize := env.tempSize
                  let procSize := env.processedSize
                  let sizeReduction : ℚ :=
                    if 0 < originalSize then
                      (((originalSize : ℚ) - (procSize : ℚ)) / (originalSize : ℚ)) * 100
                    else 0
                  ⟨.success "Image uploaded and processed successfully!"
                      (processedFilename f.filename) originalSize procSize
                      (pyRound2 sizeReduction),
                    tryRemove fs2 tp env.removeOk, some tp,
                    [.presence, .mkdir, .extCheck, .saveTemp, .verify, .qualityRes,
                      .decode, .resize, .encodeWrite, .stats, .cleanup]⟩
                else
                  if env.removeOk then
                    ⟨.failure "Server error: Unable to save processed image." 500,
                      delFile fs1 tp, some tp,
                      [.presence, .mkdir, .extCheck, .saveTemp, .verify, .qualityRes,
                        .decode, .resize, .encodeWrite]⟩
                  else
                    ⟨.failure "An unexpected error occurred. Please try again." 500,
                      fs1, some tp,
                      [.presence, .mkdir, .extCheck, .saveTemp, .verify, .qualityRes,
                        .decode, .resize, .encodeWrite]⟩
        else
          ⟨.failure "Server error: Unable to save uploaded file." 500, fs0,
            some tp, [.presence, .mkdir, .extCheck, .saveTemp]⟩
      else
        ⟨.failure "Invalid file type! Only image files are allowed." 400, fs0,
          none, [.presence, .mkdir, .extCheck]⟩
    else
      ⟨.failure "Server error: Unable to prepare upload directory." 500, fs0,
        none, [.presence, .mkdir]⟩

/-- Same environment with the removal outcome replaced. -/
def withRemoveOk (e : Env) (b : Bool) : Env :=
  ⟨e.imageFile, e.uploadFolder, e.mkdirOk, e.saveOk, e.verify, e.qualityParam,
    e.imread, b, e.imwriteOk, e.tempSize, e.processedSize⟩

/-- Same environment with the declared MIME type of the upload replaced. -/
def setMime (e : Env) (m : String) : Env :=
  ⟨e.imageFile.map (fun f => ⟨f.filename, m, f.content⟩), e.uploadFolder,
    e.mkdirOk, e.saveOk, e.verify, e.qualityParam, e.imread, e.removeOk,
    e.imwriteOk, e.tempSize, e.processedSize⟩

/-- Same environment with the quality form parameter replaced. -/
def setQuality (e : Env) (q : Option String) : Env :=
  ⟨e.imageFile, e.uploadFolder, e.mkdirOk, e.saveOk, e.verify, q,
    e.imread, e.removeOk, e.imwriteOk, e.tempSize, e.processedSize⟩

/-- The empty storage directory. -/
def fsEmpty : FS := fun _ => none

lemma data_temp (fn : String) :
    ("temp_" ++ fn).data = 't' :: 'e' :: 'm' :: 'p' :: '_' :: fn.data := by
  rw [String.data_append,
    show "temp_".data = 't' :: 'e' :: 'm' :: 'p' :: '_' :: [] from rfl]
  simp

lemma head_temp (fn : String) : ("temp_" ++ fn).data.head? = some 't' := by
  rw [data_temp]
  rfl

lemma head_processed (fn : String) :
    (processedFilename fn).data.head? = some 'p' := by
  unfold processedFilename
  rw [String.data_append, String.data_append, String.data_append]
  rw [show "processed_".data
      = 'p' :: 'r' :: 'o' :: 'c' :: 'e' :: 's' :: 's' :: 'e' :: 'd' :: '_' :: [] from rfl]
  simp

lemma sws_temp (fn : String) : startsWithSlash ("temp_" ++ fn) = false := by
  unfold startsWithSlash
  rw [head_temp]
  rfl

lemma sws_processed (fn : String) :
    startsWithSlash (processedFilename fn) = false := by
  unfold startsWithSlash
  rw [head_processed]
  rfl

lemma tempPath_ne_processedPath (fold fn fn' : String) :
    tempPath fold fn ≠ processedPath fold fn' := by
  intro h
  unfold tempPath processedPath posixJoin at h
  rw [sws_temp, sws_processed] at h
  simp only [Bool.false_eq_true, if_false] at h
  by_cases hk : (fold == "" || endsWithSlash fold) = true
  · rw [if_pos hk, if_pos hk] at h
    have h2 := congrArg String.data h
    simp only [String.data_append, List.append_cancel_left_eq] at h2
    have h3 := congrArg List.head? h2
    rw [head_processed] at h3
    simp at h3
  · rw [if_neg hk, if_neg hk] at h
    have h2 := congrArg String.data h
    simp only [String.data_append, List.append_assoc,
      List.append_cancel_left_eq] at h2
    have h3 := congrArg List.head? h2
    rw [head_processed] at h3
    simp at h3

lemma newDim_eq (d : Nat) : newDim d = (d : ℤ) / 2 := by
  unfold newDim pyTrunc
  rw [if_pos (by positivity)]
  rw [show ((d : ℚ) * 0.5) = (d : ℚ) / ((2 : ℕ) : ℚ) by push_cast; ring]
  exact_mod_cast Rat.floor_natCast_div_natCast d 2

/-- C1: whenever the temp file is created (file present, directory
preparation succeeds, extension check passes, temp write succeeds) and the
removal operation itself succeeds, the temp file is absent from the store
in the state in which the response is returned, on every exit path:
content-validation rejection (400), verification error (500), decode
failure (400), resize failure (500), encode failure (500), and success. -/
theorem upload_always_removes_temp (fold : String) (f : FileUpload)
    (ver : VerifyOutcome) (qp : Option String) (ird : Option Dims) (iw : Bool)
    (ts ps : Nat) (fs0 : FS)
    (hext : allowed_file f.filename = true) :
    (upload ⟨some f, fold, true, true, ver, qp, ird, true, iw, ts, ps⟩ fs0).fs
      (tempPath fold f.filename) = none := by
  cases ver with
  | invalid => simp [upload, hext, tryRemove, delFile]
  | err => simp [upload, hext, tryRemove, delFile]
  | ok =>
    rcases ird with _ | d
    · simp [upload, hext, delFile]
    · by_cases h0 : newDim d.width = 0 ∨ newDim d.height = 0
      · simp [upload, hext, h0, delFile]
      · cases iw <;> simp [upload, hext, h0, delFile, tryRemove, setFile]

/-- Witness for C1 at a concrete request: a 4×6 JPEG upload named
`a.jpg` into the directory `uploads`, with all external calls
succeeding. -/
theorem upload_always_removes_temp_witness :
    (upload ⟨some ⟨"a.jpg", "image/jpeg", 7⟩, "uploads", true, true, .ok, none,
        some ⟨4, 6⟩, true, true, 10, 5⟩ fsEmpty).fs
      (tempPath "uploads" "a.jpg") = none :=
  upload_always_removes_temp "uploads" ⟨"a.jpg", "image/jpeg", 7⟩ .ok none
    (some ⟨4, 6⟩) true 10 5 fsEmpty (by decide)

/-- C2 counterexample: with a request whose temp file passes Pillow
verification but for which `cv2.imread` returns `None` (line 121), the
outcome depends on whether the unguarded `os.remove` at line 122
succeeds: success of the removal yields the 400 `Invalid image file!`
response, while failure of the removal escapes to the outer handler at
line 167 and yields the generic 500 response. -/
theorem removal_failure_changes_outcome_cex :
    (upload ⟨some ⟨"a.jpg", "image/jpeg", 7⟩, "uploads", true, true, .ok, none,
        none, true, true, 10, 5⟩ fsEmpty).response
      = .failure "Invalid image file!" 400
    ∧ (upload ⟨some ⟨"a.jpg", "image/jpeg", 7⟩, "uploads", true, true, .ok, none,
        none, false, true, 10, 5⟩ fsEmpty).response
      = .failure "An unexpected error occurred. Please try again." 500
    ∧ (upload ⟨some ⟨"a.jpg", "image/jpeg", 7⟩, "uploads", true, true, .ok, none,
        none, true, true, 10, 5⟩ fsEmpty).response
      ≠ (upload ⟨some ⟨"a.jpg", "image/jpeg", 7⟩, "uploads", true, true, .ok,
          none, none, false, true, 10, 5⟩ fsEmpty).response := by
  refine ⟨by decide, by decide, by decide⟩

/-- C2 amended: a failure of the temp-file removal leaves the returned
result unchanged on the paths where the removal is guarded by its own
handler — the two content-validation failure paths and the success path —
and on the paths that never create the temp file; on the decode-failure,
resize-failure and encode-failure paths the removal is unguarded
(lines 122, 131, 146), so there a removal failure replaces the specific
error with the generic 500 response. -/
theorem removal_failure_guarded_outcome (imf : Option FileUpload)
    (fold : String) (mk sv : Bool) (ver : VerifyOutcome) (qp : Option String)
    (ird : Option Dims) (b1 b2 iw : Bool) (ts ps : Nat) (fs0 : FS)
    (h : ver = VerifyOutcome.ok →
      ∃ d, ird = some d ∧ ¬newDim d.width = 0 ∧ ¬newDim d.height = 0
        ∧ iw = true) :
    (upload ⟨imf, fold, mk, sv, ver, qp, ird, b1, iw, ts, ps⟩ fs0).response
      = (upload ⟨imf, fold, mk, sv, ver, qp, ird, b2, iw, ts, ps⟩ fs0).response := by
  rcases imf with _ | f
  · rfl
  cases mk
  · rfl
  by_cases hext : allowed_file f.filename = true
  · cases sv
    · simp [upload, hext]
    cases ver with
    | invalid => simp [upload, hext]
    | err => simp [upload, hext]
    | ok =>
      obtain ⟨d, hird, hw, hh, hiw⟩ := h rfl
      subst hird
      subst hiw
      have h0 : ¬(newDim d.width = 0 ∨ newDim d.height = 0) := by
        intro hc
        rcases hc with hc | hc
        · exact hw hc
        · exact hh hc
      simp [upload, hext, h0]
  · simp [upload, hext]

/-- Witness for C2's amended theorem at a concrete request on the guarded
success path: both removal outcomes give the same response. -/
theorem removal_failure_guarded_outcome_witness :
    (upload ⟨some ⟨"a.jpg", "image/jpeg", 7⟩, "uploads", true, true, .ok, none,
        some ⟨4, 6⟩, true, true, 10, 5⟩ fsEmpty).response
      = (upload ⟨some ⟨"a.jpg", "image/jpeg", 7⟩, "uploads", true, true, .ok,
          none, some ⟨4, 6⟩, false, true, 10, 5⟩ fsEmpty).response :=
  removal_failure_guarded_outcome (some ⟨"a.jpg", "image/jpeg", 7⟩) "uploads"
    true true .ok none (some ⟨4, 6⟩) true false true 10 5 fsEmpty
    (fun _ => ⟨⟨4, 6⟩, rfl, by rw [newDim_eq]; decide, by rw [newDim_eq]; decide,
      rfl⟩)

/-- C3 counterexample: an upload whose declared MIME type `text/plain` is
not in the allowed set defined at line 77 nevertheless reaches the decode
stage (line 120), because the handler never consults `allowed_mime_types`
or the declared MIME type: with extension `.jpg` and content that passes
Pillow verification, decoding is reached. -/
theorem mime_not_checked_cex :
    ("text/plain" ∈ allowed_mime_types → False)
    ∧ Step.decode ∈ (upload ⟨some ⟨"a.jpg", "text/plain", 7⟩, "uploads", true,
        true, .ok, none, some ⟨4, 6⟩, true, true, 10, 5⟩ fsEmpty).steps := by
  refine ⟨by decide, ?_⟩
  simp only [upload, newDim_eq]
  decide

/-- C3 amended: processing proceeds past validation (reaches the decode
stage) only for uploads that pass the filename-extension check and
content-based structural validation; no MIME-type check is performed —
the allowed-MIME set of line 77 is defined but unused — and the declared
MIME type has no effect whatsoever on the run. -/
theorem validation_checks_before_decode (f : FileUpload) (fold : String)
    (mk sv : Bool) (ver : VerifyOutcome) (qp : Option String)
    (ird : Option Dims) (rm iw : Bool) (ts ps : Nat) (fs0 : FS) :
    (Step.decode ∈
        (upload ⟨some f, fold, mk, sv, ver, qp, ird, rm, iw, ts, ps⟩ fs0).steps →
      allowed_file f.filename = true ∧ ver = VerifyOutcome.ok)
    ∧ ∀ m, upload ⟨some ⟨f.filename, m, f.content⟩, fold, mk, sv, ver, qp, ird,
        rm, iw, ts, ps⟩ fs0
      = upload ⟨some f, fold, mk, sv, ver, qp, ird, rm, iw, ts, ps⟩ fs0 := by
  constructor
  · intro hmem
    cases mk
    · exact absurd hmem (by simp [upload])
    by_cases hext : allowed_file f.filename = true
    · cases sv
      · exact absurd hmem (by simp [upload, hext])
      cases ver with
      | invalid => exact absurd hmem (by simp [upload, hext])
      | err => exact absurd hmem (by simp [upload, hext])
      | ok => exact ⟨hext, rfl⟩
    · exact absurd hmem (by simp [upload, hext])
  · intro m
    obtain ⟨fn, mm, c⟩ := f
    rfl

/-- Witness for C3's amended theorem at a concrete request: a valid
`a.jpg` upload reaches decode with the extension check and content
validation passed, and replacing its declared MIME type by `text/plain`
changes nothing about the run. -/
theorem validation_checks_before_decode_witness :
    (allowed_file "a.jpg" = true ∧ VerifyOutcome.ok = VerifyOutcome.ok)
    ∧ upload ⟨some ⟨"a.jpg", "text/plain", 7⟩, "uploads", true, true, .ok, none,
        some ⟨4, 6⟩, true, true, 10, 5⟩ fsEmpty
      = upload ⟨some ⟨"a.jpg", "image/jpeg", 7⟩, "uploads", true, true, .ok,
          none, some ⟨4, 6⟩, true, true, 10, 5⟩ fsEmpty :=
  ⟨(validation_checks_before_decode ⟨"a.jpg", "image/jpeg", 7⟩ "uploads" true
      true .ok none (some ⟨4, 6⟩) true true 10 5 fsEmpty).1
      (by simp only [upload, newDim_eq]; decide),
    (validation_checks_before_decode ⟨"a.jpg", "image/jpeg", 7⟩ "uploads" true
      true .ok none (some ⟨4, 6⟩) true true 10 5 fsEmpty).2 "text/plain"⟩

lemma upload_success_run (fold : String) (f : FileUpload) (qp : Option String)
    (d : Dims) (rm : Bool) (ts ps : Nat) (fs0 : FS)
    (hext : allowed_file f.filename = true)
    (hw : ¬newDim d.width = 0) (hh : ¬newDim d.height = 0) :
    upload ⟨some f, fold, true, true, .ok, qp, some d, rm, true, ts, ps⟩ fs0
      = ⟨.success "Image uploaded and processed successfully!"
            (processedFilename f.filename) ts ps
            (pyRound2 (if 0 < ts then (((ts : ℚ) - (ps : ℚ)) / (ts : ℚ)) * 100
              else 0)),
          tryRemove
            (setFile (setFile fs0 (tempPath fold f.filename) (.raw f.content))
              (processedPath fold f.filename)
              (.jpeg (resolveQuality qp) (newDim d.width) (newDim d.height)))
            (tempPath fold f.filename) rm,
          some (tempPath fold f.filename),
          [.presence, .mkdir, .extCheck, .saveTemp, .verify, .qualityRes,
            .decode, .resize, .encodeWrite, .stats, .cleanup]⟩ := by
  have h0 : ¬(newDim d.width = 0 ∨ newDim d.height = 0) := by tauto
  simp [upload, hext, h0]

/-- C4: for every decoded input image, the target dimensions computed at
lines 126–127 and stored with the written artifact are
`⌊width * 0.5⌋` and `⌊height * 0.5⌋` — truncation, which for the
nonnegative pixel counts coincides with the floor. -/
theorem resize_dims_floor_half (fold : String) (f : FileUpload)
    (qp : Option String) (d : Dims) (rm : Bool) (ts ps : Nat) (fs0 : FS)
    (hext : allowed_file f.filename = true)
    (hw : ¬newDim d.width = 0) (hh : ¬newDim d.height = 0) :
    (upload ⟨some f, fold, true, true, .ok, qp, some d, rm, true, ts, ps⟩
          fs0).fs (processedPath fold f.filename)
      = some (.jpeg (resolveQuality qp) (newDim d.width) (newDim d.height))
    ∧ newDim d.width = ⌊(d.width : ℚ) * 0.5⌋
    ∧ newDim d.height = ⌊(d.height : ℚ) * 0.5⌋ := by
  have hne : processedPath fold f.filename ≠ tempPath fold f.filename :=
    (tempPath_ne_processedPath fold f.filename f.filename).symm
  refine ⟨?_, ?_, ?_⟩
  · rw [upload_success_run fold f qp d rm ts ps fs0 hext hw hh]
    cases rm <;> simp [tryRemove, delFile, setFile, hne]
  · unfold newDim pyTrunc
    rw [if_pos (by positivity)]
  · unfold newDim pyTrunc
    rw [if_pos (by positivity)]

/-- Witness for C4 at a concrete request: a 5×7 image is resized to the
truncated dimensions 2×3. -/
theorem resize_dims_floor_half_witness :
    (upload ⟨some ⟨"a.jpg", "image/jpeg", 7⟩, "uploads", true, true, .ok, none,
          some ⟨5, 7⟩, true, true, 10, 5⟩ fsEmpty).fs
        (processedPath "uploads" "a.jpg")
      = some (.jpeg (resolveQuality none) (newDim 5) (newDim 7))
    ∧ newDim 5 = ⌊((5 : Nat) : ℚ) * 0.5⌋ ∧ newDim 7 = ⌊((7 : Nat) : ℚ) * 0.5⌋ :=
  resize_dims_floor_half "uploads" ⟨"a.jpg", "image/jpeg", 7⟩ none ⟨5, 7⟩ true
    10 5 fsEmpty (by decide) (by rw [newDim_eq]; decide)
    (by rw [newDim_eq]; decide)

/-- C5: every upload that passes validation and resizing is written as a
JPEG artifact carrying the resolved quality, at the path obtained by
joining the storage directory with `processed_{basename}.jpg`, replacing
whatever the store previously held at that path (the initial store `fs0`
is arbitrary); the success response reports that derived filename. -/
theorem jpeg_always_written (fold : String) (f : FileUpload)
    (qp : Option String) (d : Dims) (rm : Bool) (ts ps : Nat) (fs0 : FS)
    (hext : allowed_file f.filename = true)
    (hw : ¬newDim d.width = 0) (hh : ¬newDim d.height = 0) :
    (upload ⟨some f, fold, true, true, .ok, qp, some d, rm, true, ts, ps⟩
          fs0).fs (processedPath fold f.filename)
      = some (.jpeg (resolveQuality qp) (newDim d.width) (newDim d.height))
    ∧ processedFilename f.filename
      = "processed_" ++ splitextRoot f.filename ++ ".jpg"
    ∧ processedPath fold f.filename
      = posixJoin fold (processedFilename f.filename)
    ∧ ∃ m os ps2 r,
        (upload ⟨some f, fold, true, true, .ok, qp, some d, rm, true, ts, ps⟩
            fs0).response
          = .success m (processedFilename f.filename) os ps2 r := by
  have hne : processedPath fold f.filename ≠ tempPath fold f.filename :=
    (tempPath_ne_processedPath fold f.filename f.filename).symm
  refine ⟨?_, ?_, rfl, ?_⟩
  · rw [upload_success_run fold f qp d rm ts ps fs0 hext hw hh]
    cases rm <;> simp [tryRemove, delFile, setFile, hne]
  · rw [String.ext_iff]
    simp [processedFilename, String.data_append, List.append_assoc]
  · rw [upload_success_run fold f qp d rm ts ps fs0 hext hw hh]
    exact ⟨_, _, _, _, rfl⟩

/-- Witness for C5 at a concrete request whose initial store already
holds a file at the derived path: the artifact is overwritten. -/
theorem jpeg_always_written_witness :
    (upload ⟨some ⟨"a.png", "image/png", 7⟩, "uploads", true, true, .ok,
          some "80", some ⟨4, 6⟩, true, true, 10, 5⟩
        (setFile fsEmpty (processedPath "uploads" "a.png") (.raw 99))).fs
        (processedPath "uploads" "a.png")
      = some (.jpeg (resolveQuality (some "80")) (newDim 4) (newDim 6))
    ∧ processedFilename "a.png" = "processed_" ++ splitextRoot "a.png" ++ ".jpg"
    ∧ processedPath "uploads" "a.png"
      = posixJoin "uploads" (processedFilename "a.png")
    ∧ ∃ m os ps2 r,
        (upload ⟨some ⟨"a.png", "image/png", 7⟩, "uploads", true, true, .ok,
              some "80", some ⟨4, 6⟩, true, true, 10, 5⟩
            (setFile fsEmpty (processedPath "uploads" "a.png")
              (.raw 99))).response
          = .success m (processedFilename "a.png") os ps2 r :=
  jpeg_always_written "uploads" ⟨"a.png", "image/png", 7⟩ (some "80") ⟨4, 6⟩
    true 10 5 (setFile fsEmpty (processedPath "uploads" "a.png") (.raw 99))
    (by decide) (by rw [newDim_eq]; decide) (by rw [newDim_eq]; decide)

/-- C6: quality resolution is total and never fails the request: an
absent parameter resolves to 50, a string parsing to an integer in
[0, 100] resolves to that integer, an unparsable string resolves to 50,
a parsed integer outside [0, 100] resolves to 50, and the handler's
response does not depend on the quality parameter at all. -/
theorem quality_resolution :
    resolveQuality none = 50
    ∧ (∀ s n, pyInt s = some n → 0 ≤ n → n ≤ 100 →
        resolveQuality (some s) = n)
    ∧ (∀ s, pyInt s = none → resolveQuality (some s) = 50)
    ∧ (∀ s n, pyInt s = some n → (n < 0 ∨ 100 < n) →
        resolveQuality (some s) = 50)
    ∧ ∀ (imf : Option FileUpload) (fold : String) (mk sv : Bool)
        (ver : VerifyOutcome) (q1 q2 : Option String) (ird : Option Dims)
        (rm iw : Bool) (ts ps : Nat) (fs0 : FS),
        (upload ⟨imf, fold, mk, sv, ver, q1, ird, rm, iw, ts, ps⟩ fs0).response
          = (upload ⟨imf, fold, mk, sv, ver, q2, ird, rm, iw, ts, ps⟩
              fs0).response := by
  refine ⟨rfl, ?_, ?_, ?_, ?_⟩
  · intro s n hp h0 h100
    simp only [resolveQuality, hp]
    rw [if_neg (by omega)]
  · intro s hp
    simp only [resolveQuality, hp]
  · intro s n hp hout
    simp only [resolveQuality, hp]
    rw [if_pos hout]
  · intro imf fold mk sv ver q1 q2 ird rm iw ts ps fs0
    rcases imf with _ | f
    · rfl
    cases mk
    · rfl
    by_cases hext : allowed_file f.filename = true
    · cases sv
      · simp [upload, hext]
      cases ver with
      | invalid => simp [upload, hext]
      | err => simp [upload, hext]
      | ok =>
        rcases ird with _ | d
        · cases rm <;> simp [upload, hext]
        · by_cases h0 : newDim d.width = 0 ∨ newDim d.height = 0
          · cases rm <;> simp [upload, hext, h0]
          · cases iw <;> cases rm <;> simp [upload, hext, h0]
    · simp [upload, hext]

/-- Witness for C6 at concrete parameters: `80` is honored, `abc` and
`150` fall back to 50, and replacing the quality parameter never changes
the response of a concrete successful request. -/
theorem quality_resolution_witness :
    resolveQuality (some "80") = 80
    ∧ resolveQuality (some "abc") = 50
    ∧ resolveQuality (some "150") = 50
    ∧ (upload ⟨some ⟨"a.jpg", "image/jpeg", 7⟩, "uploads", true, true, .ok,
          some "80", none, true, true, 10, 5⟩ fsEmpty).response
      = (upload ⟨some ⟨"a.jpg", "image/jpeg", 7⟩, "uploads", true, true, .ok,
          none, none, true, true, 10, 5⟩ fsEmpty).response :=
  ⟨quality_resolution.2.1 "80" 80 (by decide) (by decide) (by decide),
    quality_resolution.2.2.1 "abc" (by decide),
    quality_resolution.2.2.2.1 "150" 150 (by decide) (by decide),
    quality_resolution.2.2.2.2 (some ⟨"a.jpg", "image/jpeg", 7⟩) "uploads"
      true true .ok (some "80") none none true true 10 5 fsEmpty⟩

/-- C7: the success response reports the byte sizes read back from the
temp and processed files and the reduction percentage
`(original - processed) / original * 100` (0 when the original size
is 0), rounded to two decimal places. -/
theorem success_stats (fold : String) (f : FileUpload) (qp : Option String)
    (d : Dims) (rm : Bool) (ts ps : Nat) (fs0 : FS)
    (hext : allowed_file f.filename = true)
    (hw : ¬newDim d.width = 0) (hh : ¬newDim d.height = 0) :
    (upload ⟨some f, fold, true, true, .ok, qp, some d, rm, true, ts, ps⟩
          fs0).response
      = .success "Image uploaded and processed successfully!"
          (processedFilename f.filename) ts ps
          (pyRound2 (if 0 < ts then (((ts : ℚ) - (ps : ℚ)) / (ts : ℚ)) * 100
            else 0))
    ∧ (ts = 0 →
        pyRound2 (if 0 < ts then (((ts : ℚ) - (ps : ℚ)) / (ts : ℚ)) * 100
          else 0) = 0) := by
  constructor
  · rw [upload_success_run fold f qp d rm ts ps fs0 hext hw hh]
  · intro h
    subst h
    norm_num [pyRound2, roundHalfEven]

/-- Witness for C7 at a concrete request: 10 original bytes, 5 processed
bytes, reported reduction `pyRound2 50 = 50`. -/
theorem success_stats_witness :
    (upload ⟨some ⟨"a.jpg", "image/jpeg", 7⟩, "uploads", true, true, .ok, none,
          some ⟨4, 6⟩, true, true, 10, 5⟩ fsEmpty).response
      = .success "Image uploaded and processed successfully!"
          (processedFilename "a.jpg") 10 5
          (pyRound2 (if 0 < (10 : Nat) then
            ((((10 : Nat) : ℚ) - ((5 : Nat) : ℚ)) / ((10 : Nat) : ℚ)) * 100
            else 0))
    ∧ ((10 : Nat) = 0 →
        pyRound2 (if 0 < (10 : Nat) then
          ((((10 : Nat) : ℚ) - ((5 : Nat) : ℚ)) / ((10 : Nat) : ℚ)) * 100
          else 0) = 0) :=
  success_stats "uploads" ⟨"a.jpg", "image/jpeg", 7⟩ none ⟨4, 6⟩ true 10 5
    fsEmpty (by decide) (by rw [newDim_eq]; decide) (by rw [newDim_eq]; decide)

/-- C8: the failure branches are mutually exclusive and tried in the
fixed source order — presence, directory preparation, extension check,
temporary persistence, content validation, decode, resize,
encode-and-persist: each conjunct characterizes the response and the
exact (prefix) list of executed stages when the corresponding check is
the first to fail, whatever the outcomes prepared for the later stages;
the final conjunct is the all-checks-pass case. -/
theorem failure_branches_ordered :
    (∀ (fold : String) (mk sv : Bool) (ver : VerifyOutcome)
        (qp : Option String) (ird : Option Dims) (rm iw : Bool) (ts ps : Nat)
        (fs0 : FS),
      (upload ⟨none, fold, mk, sv, ver, qp, ird, rm, iw, ts, ps⟩ fs0).response
          = .failure "No image uploaded!" 400
        ∧ (upload ⟨none, fold, mk, sv, ver, qp, ird, rm, iw, ts, ps⟩ fs0).steps
          = [.presence])
    ∧ (∀ (f : FileUpload) (fold : String) (sv : Bool) (ver : VerifyOutcome)
        (qp : Option String) (ird : Option Dims) (rm iw : Bool) (ts ps : Nat)
        (fs0 : FS),
      (upload ⟨some f, fold, false, sv, ver, qp, ird, rm, iw, ts, ps⟩
            fs0).response
          = .failure "Server error: Unable to prepare upload directory." 500
        ∧ (upload ⟨some f, fold, false, sv, ver, qp, ird, rm, iw, ts, ps⟩
            fs0).steps = [.presence, .mkdir])
    ∧ (∀ (f : FileUpload) (fold : String) (sv : Bool) (ver : VerifyOutcome)
        (qp : Option String) (ird : Option Dims) (rm iw : Bool) (ts ps : Nat)
        (fs0 : FS), allowed_file f.filename = false →
      (upload ⟨some f, fold, true, sv, ver, qp, ird, rm, iw, ts, ps⟩
            fs0).response
          = .failure "Invalid file type! Only image files are allowed." 400
        ∧ (upload ⟨some f, fold, true, sv, ver, qp, ird, rm, iw, ts, ps⟩
            fs0).steps = [.presence, .mkdir, .extCheck])
    ∧ (∀ (f : FileUpload) (fold : String) (ver : VerifyOutcome)
        (qp : Option String) (ird : Option Dims) (rm iw : Bool) (ts ps : Nat)
        (fs0 : FS), allowed_file f.filename = true →
      (upload ⟨some f, fold, true, false, ver, qp, ird, rm, iw, ts, ps⟩
            fs0).response
          = .failure "Server error: Unable to save uploaded file." 500
        ∧ (upload ⟨some f, fold, true, false, ver, qp, ird, rm, iw, ts, ps⟩
            fs0).steps = [.presence, .mkdir, .extCheck, .saveTemp])
    ∧ (∀ (f : FileUpload) (fold : String) (qp : Option String)
        (ird : Option Dims) (rm iw : Bool) (ts ps : Nat) (fs0 : FS),
        allowed_file f.filename = true →
      (upload ⟨some f, fold, true, true, .invalid, qp, ird, rm, iw, ts, ps⟩
            fs0).response
          = .failure "Uploaded file is not a valid image!" 400
        ∧ (upload ⟨some f, fold, true, true, .invalid, qp, ird, rm, iw, ts, ps⟩
            fs0).steps = [.presence, .mkdir, .extCheck, .saveTemp, .verify])
    ∧ (∀ (f : FileUpload) (fold : String) (qp : Option String)
        (ird : Option Dims) (rm iw : Bool) (ts ps : Nat) (fs0 : FS),
        allowed_file f.filename = true →
      (upload ⟨some f, fold, true, true, .err, qp, ird, rm, iw, ts, ps⟩
            fs0).response
          = .failure "Server error: Unable to verify file type." 500
        ∧ (upload ⟨some f, fold, true, true, .err, qp, ird, rm, iw, ts, ps⟩
            fs0).steps = [.presence, .mkdir, .extCheck, .saveTemp, .verify])
    ∧ (∀ (f : FileUpload) (fold : String) (qp : Option String) (rm iw : Bool)
        (ts ps : Nat) (fs0 : FS), allowed_file f.filename = true →
      (upload ⟨some f, fold, true, true, .ok, qp, none, rm, iw, ts, ps⟩
            fs0).response
          = (if rm then .failure "Invalid image file!" 400
            else .failure "An unexpected error occurred. Please try again." 500)
        ∧ (upload ⟨some f, fold, true, true, .ok, qp, none, rm, iw, ts, ps⟩
            fs0).steps
          = [.presence, .mkdir, .extCheck, .saveTemp, .verify, .qualityRes,
              .decode])
    ∧ (∀ (f : FileUpload) (fold : String) (qp : Option String) (d : Dims)
        (rm iw : Bool) (ts ps : Nat) (fs0 : FS),
        allowed_file f.filename = true →
        (newDim d.width = 0 ∨ newDim d.height = 0) →
      (upload ⟨some f, fold, true, true, .ok, qp, some d, rm, iw, ts, ps⟩
            fs0).response
          = (if rm then .failure "Server error: Unable to process image." 500
            else .failure "An unexpected error occurred. Please try again." 500)
        ∧ (upload ⟨some f, fold, true, true, .ok, qp, some d, rm, iw, ts, ps⟩
            fs0).steps
          = [.presence, .mkdir, .extCheck, .saveTemp, .verify, .qualityRes,
              .decode, .resize])
    ∧ (∀ (f : FileUpload) (fold : String) (qp : Option String) (d : Dims)
        (rm : Bool) (ts ps : Nat) (fs0 : FS), allowed_file f.filename = true →
        ¬(newDim d.width = 0 ∨ newDim d.height = 0) →
      (upload ⟨some f, fold, true, true, .ok, qp, some d, rm, false, ts, ps⟩
            fs0).response
          = (if rm then
              .failure "Server error: Unable to save processed image." 500
            else .failure "An unexpected error occurred. Please try again." 500)
        ∧ (upload ⟨some f, fold, true, true, .ok, qp, some d, rm, false, ts, ps⟩
            fs0).steps
          = [.presence, .mkdir, .extCheck, .saveTemp, .verify, .qualityRes,
              .decode, .resize, .encodeWrite])
    ∧ (∀ (f : FileUpload) (fold : String) (qp : Option String) (d : Dims)
        (rm : Bool) (ts ps : Nat) (fs0 : FS), allowed_file f.filename = true →
        ¬(newDim d.width = 0 ∨ newDim d.height = 0) →
      (∃ m p os ps2 r,
        (upload ⟨some f, fold, true, true, .ok, qp, some d, rm, true, ts, ps⟩
            fs0).response = .success m p os ps2 r)
        ∧ (upload ⟨some f, fold, true, true, .ok, qp, some d, rm, true, ts, ps⟩
            fs0).steps
          = [.presence, .mkdir, .extCheck, .saveTemp, .verify, .qualityRes,
              .decode, .resize, .encodeWrite, .stats, .cleanup]) := by
  refine ⟨?_, ?_, ?_, ?_, ?_, ?_, ?_, ?_, ?_, ?_⟩
  · intro fold mk sv ver qp ird rm iw ts ps fs0
    exact ⟨rfl, rfl⟩
  · intro f fold sv ver qp ird rm iw ts ps fs0
    exact ⟨rfl, rfl⟩
  · intro f fold sv ver qp ird rm iw ts ps fs0 hext
    constructor <;> simp [upload, hext]
  · intro f fold ver qp ird rm iw ts ps fs0 hext
    constructor <;> simp [upload, hext]
  · intro f fold qp ird rm iw ts ps fs0 hext
    constructor <;> simp [upload, hext]
  · intro f fold qp ird rm iw ts ps fs0 hext
    constructor <;> simp [upload, hext]
  · intro f fold qp rm iw ts ps fs0 hext
    cases rm <;> constructor <;> simp [upload, hext]
  · intro f fold qp d rm iw ts ps fs0 hext h0
    cases rm <;> constructor <;> simp [upload, hext, h0]
  · intro f fold qp d rm ts ps fs0 hext h0
    cases rm <;> constructor <;> simp [upload, hext, h0]
  · intro f fold qp d rm ts ps fs0 hext h0
    constructor
    · rw [upload_success_run fold f qp d rm ts ps fs0 hext
        (fun hc => h0 (Or.inl hc)) (fun hc => h0 (Or.inr hc))]
      exact ⟨"Image uploaded and processed successfully!",
        processedFilename f.filename, ts, ps,
        pyRound2 (if 0 < ts then (((ts : ℚ) - (ps : ℚ)) / (ts : ℚ)) * 100
          else 0), rfl⟩
    · rw [upload_success_run fold f qp d rm ts ps fs0 hext
        (fun hc => h0 (Or.inl hc)) (fun hc => h0 (Or.inr hc))]

/-- Witness for C8 at a concrete request that would fail several checks
at once: the filename `doc.txt` fails the extension check while the
prepared verification and decode outcomes would also fail; the returned
error is the extension error and no stage after the extension check
runs. -/
theorem failure_branches_ordered_witness :
    (upload ⟨some ⟨"doc.txt", "text/plain", 7⟩, "uploads", true, true,
          .invalid, none, none, true, true, 10, 5⟩ fsEmpty).response
      = .failure "Invalid file type! Only image files are allowed." 400
    ∧ (upload ⟨some ⟨"doc.txt", "text/plain", 7⟩, "uploads", true, true,
          .invalid, none, none, true, true, 10, 5⟩ fsEmpty).steps
      = [.presence, .mkdir, .extCheck] :=
  failure_branches_ordered.2.2.1 ⟨"doc.txt", "text/plain", 7⟩ "uploads" true
    .invalid none none true true 10 5 fsEmpty (by decide)

/-- C9 counterexample: the illustrative part of the claim fails — a
declared filename beginning with `../` does not place the temp file
outside the storage directory, because the `temp_` marker is prepended
to the raw filename, turning its first component into the ordinary
directory name `temp_..`: for `../x.jpg` (which passes the extension
check) the computed target `uploads/temp_../x.jpg` normalizes to a path
inside `uploads`. -/
theorem traversal_dotdot_stays_inside_cex :
    allowed_file "../x.jpg" = true
    ∧ "../x.jpg" = "../" ++ "x.jpg"
    ∧ tempPath "uploads" "../x.jpg" = "uploads/temp_../x.jpg"
    ∧ insideDir "uploads" (tempPath "uploads" "../x.jpg") = true := by
  refine ⟨by decide, by decide, by decide, by decide⟩

/-- C9 amended: the temp-file target is the storage directory joined
with `temp_` prepended to the raw declared filename, with no
sanitization; consequently some declared filename containing a path
separator — e.g. `a/../../x.jpg`, whose `..` components resolve above
the storage directory, though not one merely beginning with `../` —
yields a target outside the storage directory. -/
theorem temp_target_unsanitized :
    (∀ (fold fn : String), tempPath fold fn = posixJoin fold ("temp_" ++ fn))
    ∧ (∀ (f : FileUpload) (fold : String) (sv : Bool) (ver : VerifyOutcome)
        (qp : Option String) (ird : Option Dims) (rm iw : Bool) (ts ps : Nat)
        (fs0 : FS), allowed_file f.filename = true →
        (upload ⟨some f, fold, true, sv, ver, qp, ird, rm, iw, ts, ps⟩
            fs0).tempTarget
          = some (tempPath fold f.filename))
    ∧ ∃ fn, fn.data.contains '/' = true ∧ allowed_file fn = true
        ∧ insideDir "uploads" (tempPath "uploads" fn) = false := by
  refine ⟨fun fold fn => rfl, ?_, ⟨"a/../../x.jpg", by decide, by decide,
    by decide⟩⟩
  intro f fold sv ver qp ird rm iw ts ps fs0 hext
  cases sv
  · simp [upload, hext]
  cases ver with
  | invalid => simp [upload, hext]
  | err => simp [upload, hext]
  | ok =>
    rcases ird with _ | d
    · cases rm <;> simp [upload, hext]
    · by_cases h0 : newDim d.width = 0 ∨ newDim d.height = 0
      · cases rm <;> simp [upload, hext, h0]
      · cases iw <;> cases rm <;> simp [upload, hext, h0]

/-- Witness for C9's amended theorem at a concrete request: the save
target for the escaping filename `a/../../x.jpg` is the unsanitized
joined path. -/
theorem temp_target_unsanitized_witness :
    (upload ⟨some ⟨"a/../../x.jpg", "image/jpeg", 7⟩, "uploads", true, true,
          .invalid, none, none, true, true, 10, 5⟩ fsEmpty).tempTarget
      = some (tempPath "uploads" "a/../../x.jpg") :=
  temp_target_unsanitized.2.1 ⟨"a/../../x.jpg", "image/jpeg", 7⟩ "uploads"
    true .invalid none none true true 10 5 fsEmpty (by decide)

/-- C10: a valid, decodable image with a dimension of one pixel yields a
zero target dimension (`int(1 * 0.5) = 0`), so the resize call raises
and — the unguarded removal succeeding — the request fails with the 500
response `Server error: Unable to process image.`. -/
theorem one_pixel_dimension_fails (fold : String) (f : FileUpload)
    (qp : Option String) (d : Dims) (iw : Bool) (ts ps : Nat) (fs0 : FS)
    (hext : allowed_file f.filename = true)
    (hd : d.width = 1 ∨ d.height = 1) :
    newDim 1 = 0
    ∧ (upload ⟨some f, fold, true, true, .ok, qp, some d, true, iw, ts, ps⟩
          fs0).response
      = .failure "Server error: Unable to process image." 500 := by
  have h1 : newDim 1 = 0 := by rw [newDim_eq]; decide
  have h0 : newDim d.width = 0 ∨ newDim d.height = 0 := by
    rcases hd with hd | hd
    · exact Or.inl (by rw [hd]; exact h1)
    · exact Or.inr (by rw [hd]; exact h1)
  exact ⟨h1, by simp [upload, hext, h0]⟩

/-- Witness for C10 at a concrete request: a valid 1×6 image produces
the 500 processing error. -/
theorem one_pixel_dimension_fails_witness :
    newDim 1 = 0
    ∧ (upload ⟨some ⟨"a.jpg", "image/jpeg", 7⟩, "uploads", true, true, .ok,
          none, some ⟨1, 6⟩, true, true, 10, 5⟩ fsEmpty).response
      = .failure "Server error: Unable to process image." 500 :=
  one_pixel_dimension_fails "uploads" ⟨"a.jpg", "image/jpeg", 7⟩ none ⟨1, 6⟩
    true 10 5 fsEmpty (by decide) (Or.inl rfl)
